import Mathlib

/-!
Shallow embedding of the firmware logic of `weather-sensor.ino`
(a MySensors temperature/humidity node).

The sketch keeps its whole policy state in module-level variables:
`lastProbeValueTemp`, `lastProbeValueHum` (floats compared with exact
equality only), `cycleCptTemp`, `cycleCptHum`, `cycleCptReset` (uint16),
`batteryLowCpt` (uint8), and the two run-time parameters `CYCLE_DURATION`
(uint32 ms) and `FORCE_SEND_AFTER_N_CYCLE` (uint16).

Probe values are only ever stored and compared for exact equality, so they
are modelled by `Int` (an arbitrary type with decidable equality); the
unsigned counters are modelled by `Nat` with explicit wrap-around
`% 2 ^ 16` (resp. `% 2 ^ 8`) where the code increments them.
Side effects (radio sends, `wait(1000)` windows, the indefinite
low-battery suspend, the `jmp 0` restart) are reified as output fields of
the step functions.
-/

namespace WeatherSensor

/-- Wrap-around modulus of a `uint16` variable. -/
def UINT16_MOD : Nat := 65536

/-- Wrap-around modulus of a `uint8` variable. -/
def UINT8_MOD : Nat := 256

/-- `#define RESET_AFTER_N_CYCLE 72` -/
def RESET_AFTER_N_CYCLE : Nat := 72

/-- `#define SEND_BATTERY_LOW_AFTER_N_CYCLE 3` -/
def SEND_BATTERY_LOW_AFTER_N_CYCLE : Nat := 3

/-- `#define BATTERY_LOW_LIMIT 10` (percent). -/
def BATTERY_LOW_LIMIT : Int := 10

/-- The module-level mutable state of the sketch. -/
structure NodeState where
  lastProbeValueTemp : Int
  lastProbeValueHum : Int
  cycleCptTemp : Nat
  cycleCptHum : Nat
  cycleCptReset : Nat
  batteryLowCpt : Nat
  CYCLE_DURATION : Nat
  FORCE_SEND_AFTER_N_CYCLE : Nat
deriving DecidableEq

/-- State right after `setup()` finishes on a fresh boot: the AVR runtime
zero-initialises every module-level variable, the two parameters hold
their compiled defaults (600000 ms, 3 cycles), and `setup()` then executes
`cycleCptTemp = FORCE_SEND_AFTER_N_CYCLE;` (line 168) — note that only the
temperature counter is seeded, `cycleCptHum` stays 0. -/
def bootState : NodeState where
  lastProbeValueTemp := 0
  lastProbeValueHum := 0
  cycleCptTemp := 3
  cycleCptHum := 0
  cycleCptReset := 0
  batteryLowCpt := 0
  CYCLE_DURATION := 600000
  FORCE_SEND_AFTER_N_CYCLE := 3

/-- Result of the per-channel body inside `processWeather`. -/
structure ChannelOut where
  last : Int
  cpt : Nat
  sent : Bool
deriving DecidableEq

/-- The per-channel decision in `processWeather` (lines 321-333 for
temperature, 342-354 for humidity):
`if (probeValue != lastProbeValue || cycleCpt == FORCE_SEND_AFTER_N_CYCLE)`
then store the value, zero the counter and send; else increment the
counter (a uint16, hence the wrap-around). -/
def channelStep (force : Nat) (v last : Int) (cpt : Nat) : ChannelOut :=
  if v ≠ last ∨ cpt = force then
    ⟨v, 0, true⟩
  else
    ⟨last, (cpt + 1) % UINT16_MOD, false⟩

/-- Result of `processWeather`: the new state, which channels sent, and
the returned flag `r`. -/
structure WeatherOut where
  state : NodeState
  sentTemp : Bool
  sentHum : Bool
  r : Bool
deriving DecidableEq

/-- `processWeather()` (lines 298-358). The probe read is a single
`dht.measure()` attempt per cycle; `none` models a failed read, in which
case the function only logs and returns `false` with no state change.
On success both channels run `channelStep` against the same (global)
`FORCE_SEND_AFTER_N_CYCLE`; `r` is set to true by either send branch. -/
def processWeather (reading : Option (Int × Int)) (s : NodeState) : WeatherOut :=
  match reading with
  | none => ⟨s, false, false, false⟩
  | some (t, h) =>
    let ct := channelStep s.FORCE_SEND_AFTER_N_CYCLE t s.lastProbeValueTemp s.cycleCptTemp
    let ch := channelStep s.FORCE_SEND_AFTER_N_CYCLE h s.lastProbeValueHum s.cycleCptHum
    ⟨{ s with
        lastProbeValueTemp := ct.last
        cycleCptTemp := ct.cpt
        lastProbeValueHum := ch.last
        cycleCptHum := ch.cpt },
      ct.sent, ch.sent, ct.sent || ch.sent⟩

/-- Result of `processBattery`: the new `batteryLowCpt`, whether the
low-battery latch fired (which in the sketch reports a zero level and
then suspends indefinitely via `sleep(1, CHANGE, 0)`), and the battery
levels reported to the gateway during the step, in order. -/
structure BatteryOut where
  cpt : Nat
  lowFired : Bool
  reportedLevels : List Int
deriving DecidableEq

/-- `processBattery()` (lines 385-416): always report the raw level;
increment the uint8 streak when the level is below `BATTERY_LOW_LIMIT`,
otherwise reset it to 0; when the streak reaches
`SEND_BATTERY_LOW_AFTER_N_CYCLE` reset it, report a zero level and fire
the indefinite suspend. -/
def processBattery (level : Int) (cpt : Nat) : BatteryOut :=
  let cpt1 := if level < BATTERY_LOW_LIMIT then (cpt + 1) % UINT8_MOD else 0
  if SEND_BATTERY_LOW_AFTER_N_CYCLE ≤ cpt1 then
    ⟨0, true, [level, 0]⟩
  else
    ⟨cpt1, false, [level]⟩

/-- Fold `processBattery` over a list of readings, returning the per-step
low-latch flags (in order) and the final streak counter. -/
def observeSeq (levels : List Int) (cpt : Nat) : List Bool × Nat :=
  match levels with
  | [] => ([], cpt)
  | l :: ls =>
    let o := processBattery l cpt
    let rest := observeSeq ls o.cpt
    (o.lowFired :: rest.1, rest.2)

/-- One call of `processReset()` (lines 421-429) viewed as the watchdog
`tick`: increment `cycleCptReset` (uint16) and report whether
`cycleCptReset >= RESET_AFTER_N_CYCLE`, i.e. whether the unconditional
restart is triggered. -/
def tick (cpt : Nat) : Nat × Bool :=
  let c := (cpt + 1) % UINT16_MOD
  (c, decide (RESET_AFTER_N_CYCLE ≤ c))

/-- Counter value after `n` watchdog ticks starting from a fresh boot
(`cycleCptReset = 0`), assuming none of them triggered a restart. -/
def tickIter : Nat → Nat
  | 0 => 0
  | n + 1 => (tick (tickIter n)).1

/-- The message types the sketch distinguishes in `receive`. -/
inductive MsgType where
  | V_STATUS
  | V_VAR1
  | V_VAR2
  | otherType
deriving DecidableEq

/-- An inbound `MyMessage` as `receive` consumes it: the child-sensor id,
the type, and the three decoded payload views the handler uses
(`getBool`, `getULong`, `getUInt`). -/
structure MyMessage where
  sensor : Nat
  type : MsgType
  boolPayload : Bool
  ulongPayload : Nat
  uintPayload : Nat
deriving DecidableEq

/-- `receive()` (lines 204-254). Returns the updated state and whether a
restart was requested (`CHILD_RESET_ID = 2` with `V_STATUS` payload true
calls `restart()`). A config message (`CHILD_CONFIG_ID = 3`) updates
`CYCLE_DURATION` on `V_VAR1` and `FORCE_SEND_AFTER_N_CYCLE` on `V_VAR2`,
in each case only when the decoded unsigned value is strictly positive;
otherwise the message is silently dropped. -/
def receive (m : MyMessage) (s : NodeState) : NodeState × Bool :=
  if m.sensor = 2 ∧ m.type = MsgType.V_STATUS then
    (s, m.boolPayload)
  else if m.sensor = 3 ∧ (m.type = MsgType.V_VAR1 ∨ m.type = MsgType.V_VAR2) then
    if m.type = MsgType.V_VAR1 then
      if 0 < m.ulongPayload then
        ({ s with CYCLE_DURATION := m.ulongPayload }, false)
      else
        (s, false)
    else
      if 0 < m.uintPayload then
        ({ s with FORCE_SEND_AFTER_N_CYCLE := m.uintPayload }, false)
      else
        (s, false)
  else
    (s, false)

/-- Process, during the poll wait windows, the answers the server sent
back; accumulates whether any of them requested a restart. -/
def pollFold (ms : List MyMessage) (s : NodeState) : NodeState × Bool :=
  ms.foldl (fun acc m => ((receive m acc.1).1, acc.2 || (receive m acc.1).2)) (s, false)

/-- Observable outcome of one `loop()` iteration. -/
structure CycleOut where
  state : NodeState
  sentTemp : Bool
  sentHum : Bool
  batteryLowFired : Bool
  polled : Bool
  waits : List Nat
  restarted : Bool
deriving DecidableEq

/-- One iteration of `loop()` (lines 178-199), fed with the current
battery reading, probe reading (`none` = failed `dht.measure()`), and the
messages answered by the server during the poll wait windows.
Order as in the source: `processBattery` (whose low-battery latch
suspends the node before anything else runs), then `processWeather`,
then — only when `processWeather()` returned true —
`processCheckCommandFromServer()` and `processCheckResetFromServer()`,
each ending in a `wait(1000)` (recorded in `waits`), then
`processReset()`. A restart (from a polled reset answer or from the
watchdog) re-enters `setup()`, i.e. yields `bootState`. -/
def cycle (b : Int) (rd : Option (Int × Int)) (ans : List MyMessage) (s : NodeState) :
    CycleOut :=
  let bo := processBattery b s.batteryLowCpt
  let s1 : NodeState := { s with batteryLowCpt := bo.cpt }
  if bo.lowFired then
    ⟨s1, false, false, true, false, [], false⟩
  else
    let w := processWeather rd s1
    let pf := pollFold (if w.r then ans else []) w.state
    let waits : List Nat := if w.r then [1000, 1000] else []
    if pf.2 then
      ⟨bootState, w.sentTemp, w.sentHum, false, w.r, waits, true⟩
    else
      let t := tick pf.1.cycleCptReset
      if t.2 then
        ⟨bootState, w.sentTemp, w.sentHum, false, w.r, waits, true⟩
      else
        ⟨{ pf.1 with cycleCptReset := t.1 }, w.sentTemp, w.sentHum, false, w.r, waits, false⟩

/-- The states the node can be in at a cycle boundary: the boot state,
anything one `loop()` iteration reaches from a reachable state (with
arbitrary inputs), and anything the asynchronous `receive` callback
produces from a reachable state (a restart request lands in
`bootState`). -/
inductive Reachable : NodeState → Prop where
  | boot : Reachable bootState
  | cycleStep (s : NodeState) (b : Int) (rd : Option (Int × Int)) (ms : List MyMessage) :
      Reachable s → Reachable (cycle b rd ms s).state
  | receiveStep (s : NodeState) (m : MyMessage) :
      Reachable s →
      Reachable (if (receive m s).2 then bootState else (receive m s).1)

/-- The inductive invariant: the watchdog counter never exceeds 71 at a
cycle boundary, each channel counter is bounded by its boot seed plus the
number of completed cycles, and the battery streak stays below the
latch threshold. -/
def Inv (s : NodeState) : Prop :=
  s.cycleCptReset ≤ 71 ∧
  s.cycleCptTemp ≤ 3 + s.cycleCptReset ∧
  s.cycleCptHum ≤ s.cycleCptReset ∧
  s.batteryLowCpt ≤ 2

/-- Channel counter after `n` consecutive cycles in which the sampled
value `v` equals the held value, starting right after a send
(counter 0). -/
def cptAfterUnchanged (force : Nat) (v : Int) : Nat → Nat
  | 0 => 0
  | n + 1 => (channelStep force v v (cptAfterUnchanged force v n)).cpt

/-- State after one successful cycle from boot with readings (20, 55):
both channels sent (temperature by the boot seeding, humidity because
55 differs from the zero sentinel). -/
def reachA : NodeState where
  lastProbeValueTemp := 20
  lastProbeValueHum := 55
  cycleCptTemp := 0
  cycleCptHum := 0
  cycleCptReset := 1
  batteryLowCpt := 0
  CYCLE_DURATION := 600000
  FORCE_SEND_AFTER_N_CYCLE := 3

/-- State after a second unchanged cycle. -/
def reachB : NodeState where
  lastProbeValueTemp := 20
  lastProbeValueHum := 55
  cycleCptTemp := 1
  cycleCptHum := 1
  cycleCptReset := 2
  batteryLowCpt := 0
  CYCLE_DURATION := 600000
  FORCE_SEND_AFTER_N_CYCLE := 3

/-- State after a third unchanged cycle. -/
def reachC : NodeState where
  lastProbeValueTemp := 20
  lastProbeValueHum := 55
  cycleCptTemp := 2
  cycleCptHum := 2
  cycleCptReset := 3
  batteryLowCpt := 0
  CYCLE_DURATION := 600000
  FORCE_SEND_AFTER_N_CYCLE := 3

/-- `reachC` after the server lowers `FORCE_SEND_AFTER_N_CYCLE` to 1:
now `cycleCptHum = 2` strictly exceeds the force-send interval. -/
def cexState : NodeState where
  lastProbeValueTemp := 20
  lastProbeValueHum := 55
  cycleCptTemp := 2
  cycleCptHum := 2
  cycleCptReset := 3
  batteryLowCpt := 0
  CYCLE_DURATION := 600000
  FORCE_SEND_AFTER_N_CYCLE := 1

/-- The config message that lowers the force-send interval to 1. -/
def cexMsg : MyMessage where
  sensor := 3
  type := MsgType.V_VAR2
  boolPayload := false
  ulongPayload := 0
  uintPayload := 1

/-- Boot state with the battery streak one below the latch threshold. -/
def lowBatState : NodeState where
  lastProbeValueTemp := 0
  lastProbeValueHum := 0
  cycleCptTemp := 3
  cycleCptHum := 0
  cycleCptReset := 0
  batteryLowCpt := 2
  CYCLE_DURATION := 600000
  FORCE_SEND_AFTER_N_CYCLE := 3

/-- Boot state on the eve of the watchdog restart. -/
def preResetState : NodeState where
  lastProbeValueTemp := 0
  lastProbeValueHum := 0
  cycleCptTemp := 3
  cycleCptHum := 0
  cycleCptReset := 71
  batteryLowCpt := 0
  CYCLE_DURATION := 600000
  FORCE_SEND_AFTER_N_CYCLE := 3

/-! Helper lemmas. -/

/-- A battery reading at or above the low limit resets the streak and
reports only the raw level. -/
theorem battery_not_low {b : Int} (hb : BATTERY_LOW_LIMIT ≤ b) (c : Nat) :
    processBattery b c = ⟨0, false, [b]⟩ := by
  simp [processBattery, not_lt.mpr hb, SEND_BATTERY_LOW_AFTER_N_CYCLE]

/-- The battery streak stays below the latch threshold across a step. -/
theorem battery_cpt_le (b : Int) (c : Nat) :
    (processBattery b c).cpt ≤ 2 := by
  simp only [processBattery, SEND_BATTERY_LOW_AFTER_N_CYCLE, UINT8_MOD]
  split_ifs with h1 h2 h3
  · exact Nat.zero_le _
  · show (c + 1) % 256 ≤ 2
    omega
  · exact Nat.zero_le _
  · exact Nat.zero_le _

/-- `receive` never touches the counters. -/
theorem receive_fields (m : MyMessage) (s : NodeState) :
    ((receive m s).1).cycleCptTemp = s.cycleCptTemp ∧
    ((receive m s).1).cycleCptHum = s.cycleCptHum ∧
    ((receive m s).1).cycleCptReset = s.cycleCptReset ∧
    ((receive m s).1).batteryLowCpt = s.batteryLowCpt := by
  unfold receive
  split_ifs <;> simp

/-- Folding `receive` over any list of answers never touches the
counters. -/
theorem foldl_receive_fields (ms : List MyMessage) (p : NodeState × Bool) :
    ((ms.foldl (fun acc m => ((receive m acc.1).1, acc.2 || (receive m acc.1).2)) p).1).cycleCptTemp
        = p.1.cycleCptTemp ∧
    ((ms.foldl (fun acc m => ((receive m acc.1).1, acc.2 || (receive m acc.1).2)) p).1).cycleCptHum
        = p.1.cycleCptHum ∧
    ((ms.foldl (fun acc m => ((receive m acc.1).1, acc.2 || (receive m acc.1).2)) p).1).cycleCptReset
        = p.1.cycleCptReset ∧
    ((ms.foldl (fun acc m => ((receive m acc.1).1, acc.2 || (receive m acc.1).2)) p).1).batteryLowCpt
        = p.1.batteryLowCpt := by
  induction ms generalizing p with
  | nil => exact ⟨rfl, rfl, rfl, rfl⟩
  | cons m ms ih =>
    simp only [List.foldl_cons]
    obtain ⟨i1, i2, i3, i4⟩ := ih ((receive m p.1).1, p.2 || (receive m p.1).2)
    obtain ⟨r1, r2, r3, r4⟩ := receive_fields m p.1
    exact ⟨i1.trans r1, i2.trans r2, i3.trans r3, i4.trans r4⟩

/-- `pollFold` never touches the counters. -/
theorem pollFold_fields (ms : List MyMessage) (s : NodeState) :
    ((pollFold ms s).1).cycleCptTemp = s.cycleCptTemp ∧
    ((pollFold ms s).1).cycleCptHum = s.cycleCptHum ∧
    ((pollFold ms s).1).cycleCptReset = s.cycleCptReset ∧
    ((pollFold ms s).1).batteryLowCpt = s.batteryLowCpt :=
  foldl_receive_fields ms (s, false)

/-- `processWeather` only writes the two channels: the watchdog counter,
the battery streak and the two parameters pass through unchanged. -/
theorem processWeather_state_fields (rd : Option (Int × Int)) (s : NodeState) :
    (processWeather rd s).state.cycleCptReset = s.cycleCptReset ∧
    (processWeather rd s).state.batteryLowCpt = s.batteryLowCpt ∧
    (processWeather rd s).state.CYCLE_DURATION = s.CYCLE_DURATION ∧
    (processWeather rd s).state.FORCE_SEND_AFTER_N_CYCLE = s.FORCE_SEND_AFTER_N_CYCLE := by
  cases rd with
  | none => exact ⟨rfl, rfl, rfl, rfl⟩
  | some p => cases p with
    | mk t h => exact ⟨rfl, rfl, rfl, rfl⟩

/-- The send decisions of `processWeather` do not depend on the battery
streak field. -/
theorem processWeather_battery_irrel (rd : Option (Int × Int)) (s : NodeState) (c : Nat) :
    (processWeather rd { s with batteryLowCpt := c }).r = (processWeather rd s).r ∧
    (processWeather rd { s with batteryLowCpt := c }).sentTemp = (processWeather rd s).sentTemp ∧
    (processWeather rd { s with batteryLowCpt := c }).sentHum = (processWeather rd s).sentHum := by
  cases rd with
  | none => exact ⟨rfl, rfl, rfl⟩
  | some p => cases p with
    | mk t h => exact ⟨rfl, rfl, rfl⟩

/-- The send decision of one channel step, as a characterisation. -/
theorem channelStep_sent_iff (force : Nat) (v last : Int) (cpt : Nat) :
    (channelStep force v last cpt).sent = true ↔ (v ≠ last ∨ cpt = force) := by
  unfold channelStep
  split_ifs with hc
  · exact iff_of_true rfl hc
  · exact iff_of_false (by simp) hc

/-- The held value after one channel step. -/
theorem channelStep_last_eq (force : Nat) (v last : Int) (cpt : Nat) :
    (channelStep force v last cpt).last =
      (if v ≠ last ∨ cpt = force then v else last) := by
  unfold channelStep
  split_ifs <;> rfl

/-- The counter after one channel step. -/
theorem channelStep_cpt_eq (force : Nat) (v last : Int) (cpt : Nat) :
    (channelStep force v last cpt).cpt =
      (if v ≠ last ∨ cpt = force then 0 else (cpt + 1) % UINT16_MOD) := by
  unfold channelStep
  split_ifs <;> rfl

/-- A channel counter grows by at most one per cycle. -/
theorem channelStep_cpt_succ_le (force : Nat) (v last : Int) (cpt : Nat) :
    (channelStep force v last cpt).cpt ≤ cpt + 1 := by
  unfold channelStep
  split_ifs
  · exact Nat.zero_le _
  · exact Nat.mod_le _ _

/-- Both channel counters grow by at most one per `processWeather`
step. -/
theorem processWeather_cpt_le (rd : Option (Int × Int)) (s : NodeState) :
    (processWeather rd s).state.cycleCptTemp ≤ s.cycleCptTemp + 1 ∧
    (processWeather rd s).state.cycleCptHum ≤ s.cycleCptHum + 1 := by
  cases rd with
  | none => exact ⟨Nat.le_succ _, Nat.le_succ _⟩
  | some p => cases p with
    | mk t h =>
      exact ⟨channelStep_cpt_succ_le _ t s.lastProbeValueTemp s.cycleCptTemp,
             channelStep_cpt_succ_le _ h s.lastProbeValueHum s.cycleCptHum⟩

/-- The boot state satisfies the inductive invariant. -/
theorem inv_boot : Inv bootState := by
  unfold Inv
  decide

/-- A non-triggering watchdog tick keeps the invariant on the final
state of a normally completed cycle. -/
theorem inv_step_final {s pst : NodeState}
    (hr : s.cycleCptReset ≤ 71) (ht : s.cycleCptTemp ≤ 3 + s.cycleCptReset)
    (hh : s.cycleCptHum ≤ s.cycleCptReset)
    (hbt : pst.batteryLowCpt ≤ 2)
    (h1 : pst.cycleCptTemp ≤ s.cycleCptTemp + 1)
    (h2 : pst.cycleCptHum ≤ s.cycleCptHum + 1)
    (h3 : pst.cycleCptReset = s.cycleCptReset)
    (hnt : (tick pst.cycleCptReset).2 = false) :
    Inv { pst with cycleCptReset := (tick pst.cycleCptReset).1 } := by
  have hmod : (pst.cycleCptReset + 1) % UINT16_MOD = pst.cycleCptReset + 1 :=
    Nat.mod_eq_of_lt (show pst.cycleCptReset + 1 < 65536 by omega)
  have hnt1 : decide (RESET_AFTER_N_CYCLE ≤ (pst.cycleCptReset + 1) % UINT16_MOD) = false := hnt
  rw [hmod] at hnt1
  have h72 : ¬ (72 ≤ pst.cycleCptReset + 1) := of_decide_eq_false hnt1
  have ht1 : (tick pst.cycleCptReset).1 = pst.cycleCptReset + 1 := by
    show (pst.cycleCptReset + 1) % UINT16_MOD = pst.cycleCptReset + 1
    exact hmod
  unfold Inv
  simp only [ht1]
  exact ⟨by omega, by omega, by omega, hbt⟩

/-- The normal-completion branch of a cycle preserves the invariant:
polls never touch the counters, the weather step advances each channel
counter by at most one, and the non-triggering tick advances the
watchdog counter by one. -/
theorem inv_pollfold_final {s : NodeState} (b : Int) (rd : Option (Int × Int))
    (ms : List MyMessage)
    (hr : s.cycleCptReset ≤ 71) (ht : s.cycleCptTemp ≤ 3 + s.cycleCptReset)
    (hh : s.cycleCptHum ≤ s.cycleCptReset)
    (hnt : (tick (pollFold ms (processWeather rd { s with batteryLowCpt := (processBattery b s.batteryLowCpt).cpt }).state).1.cycleCptReset).2 = false) :
    Inv { (pollFold ms (processWeather rd { s with batteryLowCpt := (processBattery b s.batteryLowCpt).cpt }).state).1 with
          cycleCptReset := (tick (pollFold ms (processWeather rd { s with batteryLowCpt := (processBattery b s.batteryLowCpt).cpt }).state).1.cycleCptReset).1 } := by
  obtain ⟨p1, p2, p3, p4⟩ :=
    pollFold_fields ms (processWeather rd { s with batteryLowCpt := (processBattery b s.batteryLowCpt).cpt }).state
  obtain ⟨f1, f2, f3, f4⟩ :=
    processWeather_state_fields rd { s with batteryLowCpt := (processBattery b s.batteryLowCpt).cpt }
  obtain ⟨c1, c2⟩ :=
    processWeather_cpt_le rd { s with batteryLowCpt := (processBattery b s.batteryLowCpt).cpt }
  have hbc : (processBattery b s.batteryLowCpt).cpt ≤ 2 := battery_cpt_le b s.batteryLowCpt
  exact inv_step_final hr ht hh
    (by rw [p4, f2]; exact hbc)
    (by rw [p1]; exact c1)
    (by rw [p2]; exact c2)
    (p3.trans f1)
    hnt

/-- One `loop()` iteration preserves the inductive invariant. -/
theorem cycle_inv (b : Int) (rd : Option (Int × Int)) (ans : List MyMessage)
    {s : NodeState} (h : Inv s) : Inv (cycle b rd ans s).state := by
  obtain ⟨hr, ht, hh, hb⟩ := h
  have hbc : (processBattery b s.batteryLowCpt).cpt ≤ 2 := battery_cpt_le b s.batteryLowCpt
  simp only [cycle]
  split_ifs
  all_goals
    first
      | exact ⟨hr, ht, hh, hbc⟩
      | exact inv_boot
      | (rename_i hnt
         exact inv_pollfold_final b rd ans hr ht hh
           (by simp only [Bool.not_eq_true] at hnt; exact hnt))
      | (rename_i hnt
         exact inv_pollfold_final b rd [] hr ht hh
           (by simp only [Bool.not_eq_true] at hnt; exact hnt))

/-- The asynchronous `receive` callback preserves the inductive
invariant (a requested restart lands in the boot state). -/
theorem receive_inv (m : MyMessage) {s : NodeState} (h : Inv s) :
    Inv (if (receive m s).2 then bootState else (receive m s).1) := by
  split_ifs with h1
  · exact inv_boot
  · obtain ⟨r1, r2, r3, r4⟩ := receive_fields m s
    obtain ⟨g1, g2, g3, g4⟩ := h
    exact ⟨by omega, by omega, by omega, by omega⟩

/-- Every reachable state satisfies the inductive invariant. -/
theorem reachable_inv {s : NodeState} (h : Reachable s) : Inv s := by
  induction h with
  | boot => exact inv_boot
  | cycleStep s b rd ms _ ih => exact cycle_inv b rd ms ih
  | receiveStep s m _ ih => exact receive_inv m ih

/-- Full reduction of one cycle when the battery is not low, there are
no poll answers, and the watchdog does not expire. -/
theorem cycle_normal (b : Int) (rd : Option (Int × Int)) (s : NodeState)
    (hb : BATTERY_LOW_LIMIT ≤ b)
    (hr : s.cycleCptReset + 1 < RESET_AFTER_N_CYCLE) :
    cycle b rd [] s =
      ⟨{ (processWeather rd { s with batteryLowCpt := 0 }).state with
           cycleCptReset := s.cycleCptReset + 1 },
        (processWeather rd { s with batteryLowCpt := 0 }).sentTemp,
        (processWeather rd { s with batteryLowCpt := 0 }).sentHum,
        false,
        (processWeather rd { s with batteryLowCpt := 0 }).r,
        if (processWeather rd { s with batteryLowCpt := 0 }).r then [1000, 1000] else [],
        false⟩ := by
  have hbl := battery_not_low hb s.batteryLowCpt
  have hr72 : s.cycleCptReset + 1 < 72 := hr
  have hmod : (s.cycleCptReset + 1) % UINT16_MOD = s.cycleCptReset + 1 :=
    Nat.mod_eq_of_lt (show s.cycleCptReset + 1 < 65536 by omega)
  obtain ⟨f1, f2, f3, f4⟩ := processWeather_state_fields rd { s with batteryLowCpt := 0 }
  have hpoll : pollFold (if (processWeather rd { s with batteryLowCpt := 0 }).r then [] else []) (processWeather rd { s with batteryLowCpt := 0 }).state = ((processWeather rd { s with batteryLowCpt := 0 }).state, false) := by
    rw [ite_self]
    rfl
  have h72 : ¬ (RESET_AFTER_N_CYCLE ≤ s.cycleCptReset + 1) := by
    simp only [RESET_AFTER_N_CYCLE]
    omega
  have htick : tick (processWeather rd { s with batteryLowCpt := 0 }).state.cycleCptReset =
      (s.cycleCptReset + 1, false) := by
    rw [f1]
    show ((s.cycleCptReset + 1) % UINT16_MOD,
          decide (RESET_AFTER_N_CYCLE ≤ (s.cycleCptReset + 1) % UINT16_MOD)) = _
    rw [hmod]
    rw [decide_eq_false h72]
  simp [cycle, hbl, pollFold, htick]

/-! Claim theorems. -/

/-- Claim C1, counterexample. The claim asserts that on every cycle with
a successful read a send is issued exactly when the sampled value differs
from the last reported value or the channel counter is at least
`FORCE_SEND_AFTER_N_CYCLE`. The code tests exact equality
(`cycleCptHum == FORCE_SEND_AFTER_N_CYCLE`), and the reachable state
`cexState` (boot, three unchanged cycles, then a remote reconfiguration
lowering the interval from 3 to 1) has `cycleCptHum = 2 ≥ 1 =
FORCE_SEND_AFTER_N_CYCLE` with the sampled humidity 55 equal to the held
value, yet the humidity channel does not send. -/
theorem c1_counterexample :
    Reachable cexState ∧
    cexState.lastProbeValueHum = 55 ∧
    cexState.FORCE_SEND_AFTER_N_CYCLE ≤ cexState.cycleCptHum ∧
    (processWeather (some (20, 55)) cexState).sentHum = false := by
  refine ⟨?_, by decide, by decide, by decide⟩
  have h1 := Reachable.cycleStep bootState 50 (some (20, 55)) [] Reachable.boot
  rw [show (cycle 50 (some (20, 55)) [] bootState).state = reachA from by decide] at h1
  have h2 := Reachable.cycleStep reachA 50 (some (20, 55)) [] h1
  rw [show (cycle 50 (some (20, 55)) [] reachA).state = reachB from by decide] at h2
  have h3 := Reachable.cycleStep reachB 50 (some (20, 55)) [] h2
  rw [show (cycle 50 (some (20, 55)) [] reachB).state = reachC from by decide] at h3
  have h4 := Reachable.receiveStep reachC cexMsg h3
  rw [show (if (receive cexMsg reachC).2 then bootState else (receive cexMsg reachC).1)
        = cexState from by decide] at h4
  exact h4

/-- Claim C1, amended: on every cycle with a successful probe read, a
channel sends exactly when the freshly sampled value differs from the
held value (exact equality) or the channel counter is exactly equal to
`FORCE_SEND_AFTER_N_CYCLE`; on a send the held value becomes the sample
and the counter resets to 0, otherwise the held value is unchanged and
the counter is incremented by one (as a uint16, so modulo 2 ^ 16). -/
theorem c1_amended (s : NodeState) (t h : Int) :
    ((processWeather (some (t, h)) s).sentTemp = true ↔
      (t ≠ s.lastProbeValueTemp ∨ s.cycleCptTemp = s.FORCE_SEND_AFTER_N_CYCLE)) ∧
    ((processWeather (some (t, h)) s).sentHum = true ↔
      (h ≠ s.lastProbeValueHum ∨ s.cycleCptHum = s.FORCE_SEND_AFTER_N_CYCLE)) ∧
    (processWeather (some (t, h)) s).state.lastProbeValueTemp =
      (if t ≠ s.lastProbeValueTemp ∨ s.cycleCptTemp = s.FORCE_SEND_AFTER_N_CYCLE then t
       else s.lastProbeValueTemp) ∧
    (processWeather (some (t, h)) s).state.cycleCptTemp =
      (if t ≠ s.lastProbeValueTemp ∨ s.cycleCptTemp = s.FORCE_SEND_AFTER_N_CYCLE then 0
       else (s.cycleCptTemp + 1) % UINT16_MOD) ∧
    (processWeather (some (t, h)) s).state.lastProbeValueHum =
      (if h ≠ s.lastProbeValueHum ∨ s.cycleCptHum = s.FORCE_SEND_AFTER_N_CYCLE then h
       else s.lastProbeValueHum) ∧
    (processWeather (some (t, h)) s).state.cycleCptHum =
      (if h ≠ s.lastProbeValueHum ∨ s.cycleCptHum = s.FORCE_SEND_AFTER_N_CYCLE then 0
       else (s.cycleCptHum + 1) % UINT16_MOD) := by
  refine ⟨?_, ?_, ?_, ?_, ?_, ?_⟩
  · exact channelStep_sent_iff s.FORCE_SEND_AFTER_N_CYCLE t s.lastProbeValueTemp s.cycleCptTemp
  · exact channelStep_sent_iff s.FORCE_SEND_AFTER_N_CYCLE h s.lastProbeValueHum s.cycleCptHum
  · exact channelStep_last_eq s.FORCE_SEND_AFTER_N_CYCLE t s.lastProbeValueTemp s.cycleCptTemp
  · exact channelStep_cpt_eq s.FORCE_SEND_AFTER_N_CYCLE t s.lastProbeValueTemp s.cycleCptTemp
  · exact channelStep_last_eq s.FORCE_SEND_AFTER_N_CYCLE h s.lastProbeValueHum s.cycleCptHum
  · exact channelStep_cpt_eq s.FORCE_SEND_AFTER_N_CYCLE h s.lastProbeValueHum s.cycleCptHum

/-- Claim C2, counterexample. The claim asserts that on the very first
cycle after boot a send is issued for every channel even when the sample
equals the zero-initialised sentinel. `setup()` seeds only
`cycleCptTemp`; with a first humidity sample of 0 (equal to the zero
sentinel) and `cycleCptHum = 0 ≠ 3`, the humidity channel does not
send. -/
theorem c2_counterexample :
    bootState.lastProbeValueHum = 0 ∧
    bootState.cycleCptHum = 0 ∧
    (processWeather (some (20, 0)) bootState).sentHum = false := by
  decide

/-- Claim C2, amended: at boot only the temperature counter is seeded to
`FORCE_SEND_AFTER_N_CYCLE`, so on the first cycle after boot the
temperature channel always sends, whatever the sampled values are; the
humidity counter starts at 0, so the humidity channel sends on the first
cycle exactly when the sampled humidity differs from the zero
sentinel. -/
theorem c2_amended :
    bootState.cycleCptTemp = bootState.FORCE_SEND_AFTER_N_CYCLE ∧
    bootState.cycleCptHum = 0 ∧
    (∀ t h : Int, (processWeather (some (t, h)) bootState).sentTemp = true) ∧
    (∀ t h : Int, ((processWeather (some (t, h)) bootState).sentHum = true ↔ h ≠ 0)) := by
  refine ⟨rfl, rfl, ?_, ?_⟩
  · intro t h
    show (channelStep 3 t 0 3).sent = true
    rw [channelStep_sent_iff]
    exact Or.inr rfl
  · intro t h
    show (channelStep 3 h 0 0).sent = true ↔ h ≠ 0
    rw [channelStep_sent_iff]
    simp

/-- Claim C3, counterexample. With the default interval 3, starting from
a just-sent state (counter 0) and an unchanged value, the code does not
send on the 3rd unchanged cycle (the counter is then 2, not equal to 3),
contradicting the claim that the send happens on the
`forceSendInterval`-th cycle. -/
theorem c3_counterexample :
    cptAfterUnchanged 3 5 2 = 2 ∧
    (channelStep 3 (5 : Int) 5 (cptAfterUnchanged 3 5 2)).sent = false ∧
    (channelStep 3 (5 : Int) 5 (cptAfterUnchanged 3 5 0)).sent = false ∧
    (channelStep 3 (5 : Int) 5 (cptAfterUnchanged 3 5 1)).sent = false := by
  decide

/-- Intermediate fact for claim C3: while the counter has not yet
reached the interval, an unchanged-value cycle just increments it. -/
theorem cpt_unchanged_eq (force : Nat) (v : Int) (hf : force < UINT16_MOD) :
    ∀ n, n ≤ force → cptAfterUnchanged force v n = n := by
  intro n
  induction n with
  | zero => intro _; rfl
  | succ k ih =>
    intro hk
    have hk1 : k ≤ force := Nat.le_of_succ_le hk
    have hkf : k ≠ force := by omega
    have hc : ¬ (v ≠ v ∨ k = force) := by
      push_neg
      exact ⟨rfl, hkf⟩
    simp only [cptAfterUnchanged]
    rw [ih hk1]
    simp only [channelStep]
    rw [if_neg hc]
    show (k + 1) % UINT16_MOD = k + 1
    exact Nat.mod_eq_of_lt (Nat.lt_of_le_of_lt hk hf)

/-- Claim C3, amended: starting right after a send (counter 0), with the
sampled value equal to the held value on every following cycle with a
successful read, no send is issued on any of the first
`forceSendInterval` such cycles, and a send is issued on the
`(forceSendInterval + 1)`-th such cycle. -/
theorem c3_amended (force : Nat) (v : Int) (hf : force < UINT16_MOD) :
    (∀ k, 1 ≤ k → k ≤ force →
      (channelStep force v v (cptAfterUnchanged force v (k - 1))).sent = false) ∧
    (channelStep force v v (cptAfterUnchanged force v force)).sent = true := by
  constructor
  · intro k hk1 hkf
    rw [cpt_unchanged_eq force v hf (k - 1) (by omega)]
    cases hsent : (channelStep force v v (k - 1)).sent with
    | false => rfl
    | true =>
      exfalso
      rcases (channelStep_sent_iff force v v (k - 1)).mp hsent with hne | heq
      · exact hne rfl
      · omega
  · rw [cpt_unchanged_eq force v hf force le_rfl, channelStep_sent_iff]
    exact Or.inr rfl

/-- Witness for the amended claim C3, at the compiled default interval 3
and value 7: the 3rd unchanged cycle does not send, the 4th does. -/
theorem c3_amended_witness :
    (channelStep 3 (7 : Int) 7 (cptAfterUnchanged 3 7 2)).sent = false ∧
    (channelStep 3 (7 : Int) 7 (cptAfterUnchanged 3 7 3)).sent = true :=
  ⟨(c3_amended 3 7 (by decide)).1 3 (by decide) (by decide),
   (c3_amended 3 7 (by decide)).2⟩

/-- Claim C4: on readings 9, 9, 9 (below the 10 percent limit) from
streak 0, the low-battery latch fires exactly on the third reading, the
streak is reset to 0, and the firing step reports the raw level and then
a zero level before the indefinite suspend (which in a full cycle stops
the weather step from running); on 9, 9, 11, 9, 9, 9 the streak resets
at the 11 reading and the latch fires only after three further
consecutive low readings. -/
theorem c4 :
    (observeSeq [9, 9, 9] 0).1 = [false, false, true] ∧
    (observeSeq [9, 9, 9] 0).2 = 0 ∧
    processBattery 9 2 = ⟨0, true, [9, 0]⟩ ∧
    (cycle 9 (some (20, 55)) [] lowBatState).batteryLowFired = true ∧
    (cycle 9 (some (20, 55)) [] lowBatState).sentTemp = false ∧
    (cycle 9 (some (20, 55)) [] lowBatState).sentHum = false ∧
    (cycle 9 (some (20, 55)) [] lowBatState).state.batteryLowCpt = 0 ∧
    (observeSeq [9, 9, 11, 9, 9, 9] 0).1 = [false, false, false, false, false, true] ∧
    (observeSeq [9, 9, 11] 0).2 = 0 := by
  decide

set_option maxRecDepth 8192 in
/-- Claim C5: from `cycleCptReset = 0`, every `processReset` call
increments the counter; calls 1 through 71 do not trigger a restart, and
the 72nd call triggers the unconditional full restart (modelled by the
cycle ending in `bootState` with `restarted = true`). -/
theorem c5 :
    ((List.range 72).all fun n => tickIter (n + 1) == n + 1) = true ∧
    ((List.range 71).all fun n => !(tick (tickIter n)).2) = true ∧
    (tick (tickIter 71)).2 = true ∧
    (cycle 50 none [] preResetState).restarted = true ∧
    (cycle 50 none [] preResetState).state = bootState := by
  decide

/-- Claim C6: on a cycle whose probe read fails, `processWeather` leaves
the state exactly as it was, sends nothing and returns false; the cycle
itself still completes (the watchdog counter still advances and only the
battery streak field is rewritten by the battery step), no poll is
performed and no wait is entered. -/
theorem c6 (s : NodeState) (b : Int) (ans : List MyMessage)
    (hb : BATTERY_LOW_LIMIT ≤ b) (hr : s.cycleCptReset + 1 < RESET_AFTER_N_CYCLE) :
    processWeather none s = ⟨s, false, false, false⟩ ∧
    (cycle b none ans s).state =
      { s with batteryLowCpt := 0, cycleCptReset := s.cycleCptReset + 1 } ∧
    (cycle b none ans s).sentTemp = false ∧
    (cycle b none ans s).sentHum = false ∧
    (cycle b none ans s).polled = false ∧
    (cycle b none ans s).waits = [] ∧
    (cycle b none ans s).restarted = false := by
  have hcn := cycle_normal b none s hb hr
  have hans : cycle b none ans s = cycle b none [] s := by
    simp only [cycle, processWeather]
    rfl
  rw [hans, hcn]
  exact ⟨rfl, rfl, rfl, rfl, rfl, rfl, rfl⟩

/-- Witness for claim C6 at the boot state with battery level 50. -/
theorem c6_witness :
    processWeather none bootState = ⟨bootState, false, false, false⟩ ∧
    (cycle 50 none [] bootState).state =
      { bootState with batteryLowCpt := 0, cycleCptReset := 1 } ∧
    (cycle 50 none [] bootState).sentTemp = false ∧
    (cycle 50 none [] bootState).sentHum = false ∧
    (cycle 50 none [] bootState).polled = false ∧
    (cycle 50 none [] bootState).waits = [] ∧
    (cycle 50 none [] bootState).restarted = false :=
  c6 bootState 50 [] (by decide) (by decide)

/-- Claim C7: a strictly positive inbound value replaces the addressed
parameter (and only it, so the two parameters are independently
settable), a zero value leaves the state entirely unchanged, and in all
four cases no restart and no error is produced. -/
theorem c7 (s : NodeState) (v : Nat) (bp : Bool) (up un : Nat) :
    (0 < v →
      receive ⟨3, MsgType.V_VAR1, bp, v, un⟩ s = ({ s with CYCLE_DURATION := v }, false)) ∧
    receive ⟨3, MsgType.V_VAR1, bp, 0, un⟩ s = (s, false) ∧
    (0 < v →
      receive ⟨3, MsgType.V_VAR2, bp, up, v⟩ s =
        ({ s with FORCE_SEND_AFTER_N_CYCLE := v }, false)) ∧
    receive ⟨3, MsgType.V_VAR2, bp, up, 0⟩ s = (s, false) := by
  refine ⟨fun hv => ?_, ?_, fun hv => ?_, ?_⟩
  · simp [receive, hv]
  · simp [receive]
  · simp [receive, hv]
  · simp [receive]

/-- Witness for claim C7 at the boot state and value 5. -/
theorem c7_witness :
    receive ⟨3, MsgType.V_VAR1, false, 5, 0⟩ bootState =
      ({ bootState with CYCLE_DURATION := 5 }, false) ∧
    receive ⟨3, MsgType.V_VAR1, false, 0, 0⟩ bootState = (bootState, false) ∧
    receive ⟨3, MsgType.V_VAR2, false, 0, 5⟩ bootState =
      ({ bootState with FORCE_SEND_AFTER_N_CYCLE := 5 }, false) ∧
    receive ⟨3, MsgType.V_VAR2, false, 0, 0⟩ bootState = (bootState, false) :=
  ⟨(c7 bootState 5 false 0 0).1 (by decide),
   (c7 bootState 5 false 0 0).2.1,
   (c7 bootState 5 false 0 0).2.2.1 (by decide),
   (c7 bootState 5 false 0 0).2.2.2⟩

/-- Claim C8, counterexample. The claim asserts the two server polls
happen on every cycle. On a reachable cycle that issues no send — a
failed probe read from boot, or a successful read with unchanged values
from the reachable state `reachA` — no poll is performed and no wait is
entered. -/
theorem c8_counterexample :
    Reachable reachA ∧
    (cycle 50 (some (20, 55)) [] reachA).polled = false ∧
    (cycle 50 (some (20, 55)) [] reachA).waits = [] ∧
    (cycle 50 none [] bootState).polled = false ∧
    (cycle 50 none [] bootState).waits = [] := by
  refine ⟨?_, by decide, by decide, by decide, by decide⟩
  have h1 := Reachable.cycleStep bootState 50 (some (20, 55)) [] Reachable.boot
  rw [show (cycle 50 (some (20, 55)) [] bootState).state = reachA from by decide] at h1
  exact h1

/-- Claim C8, amended: on every cycle in which the weather step issued a
send (and the battery latch and watchdog did not fire), the node polls
the collector for configuration and for a reset command, each poll
bounded by a `wait(1000)` window; when no answer arrives, the cycle
proceeds with the configuration values already held. -/
theorem c8_amended (s : NodeState) (b : Int) (rd : Option (Int × Int))
    (hb : BATTERY_LOW_LIMIT ≤ b)
    (hw : (processWeather rd s).r = true)
    (hr : s.cycleCptReset + 1 < RESET_AFTER_N_CYCLE) :
    (cycle b rd [] s).polled = true ∧
    (cycle b rd [] s).waits = [1000, 1000] ∧
    (cycle b rd [] s).state.CYCLE_DURATION = s.CYCLE_DURATION ∧
    (cycle b rd [] s).state.FORCE_SEND_AFTER_N_CYCLE = s.FORCE_SEND_AFTER_N_CYCLE ∧
    (cycle b rd [] s).restarted = false := by
  have hw1 : (processWeather rd { s with batteryLowCpt := 0 }).r = true := by
    rw [(processWeather_battery_irrel rd s 0).1]
    exact hw
  obtain ⟨f1, f2, f3, f4⟩ := processWeather_state_fields rd { s with batteryLowCpt := 0 }
  rw [cycle_normal b rd s hb hr]
  refine ⟨hw1, by simp [hw1], f3, f4, rfl⟩

/-- Witness for the amended claim C8: from boot with readings (20, 55)
both channels send, the polls happen and the configuration is kept. -/
theorem c8_amended_witness :
    (cycle 50 (some (20, 55)) [] bootState).polled = true ∧
    (cycle 50 (some (20, 55)) [] bootState).waits = [1000, 1000] ∧
    (cycle 50 (some (20, 55)) [] bootState).state.CYCLE_DURATION = bootState.CYCLE_DURATION ∧
    (cycle 50 (some (20, 55)) [] bootState).state.FORCE_SEND_AFTER_N_CYCLE =
      bootState.FORCE_SEND_AFTER_N_CYCLE ∧
    (cycle 50 (some (20, 55)) [] bootState).restarted = false :=
  c8_amended bootState 50 (some (20, 55)) (by decide) (by decide) (by decide)

/-- Claim C9: in every reachable state — the reachability relation
includes arbitrary remote reconfiguration via `receive` — the battery
streak and the channel counters are (being naturals that model unsigned
registers) never negative, and they are bounded by small constants: the
watchdog restart after 72 cycles caps each channel counter. -/
theorem c9 (s : NodeState) (h : Reachable s) :
    s.cycleCptTemp ≤ 74 ∧ s.cycleCptHum ≤ 71 ∧
    s.batteryLowCpt ≤ 2 ∧ s.cycleCptReset ≤ 71 := by
  obtain ⟨h1, h2, h3, h4⟩ := reachable_inv h
  exact ⟨by omega, by omega, h4, h1⟩

/-- Witness for claim C9 at the boot state. -/
theorem c9_witness :
    bootState.cycleCptTemp ≤ 74 ∧ bootState.cycleCptHum ≤ 71 ∧
    bootState.batteryLowCpt ≤ 2 ∧ bootState.cycleCptReset ≤ 71 :=
  c9 bootState Reachable.boot

/-- Claim C10: `processWeather` returns true exactly when at least one
of the two channels sent, and (on a cycle whose battery latch and
watchdog do not fire) that return value is exactly the condition under
which the configuration poll and the reset poll are performed. -/
theorem c10 (s : NodeState) (b : Int) (rd : Option (Int × Int))
    (hb : BATTERY_LOW_LIMIT ≤ b) (hr : s.cycleCptReset + 1 < RESET_AFTER_N_CYCLE) :
    (processWeather rd s).r =
      ((processWeather rd s).sentTemp || (processWeather rd s).sentHum) ∧
    (cycle b rd [] s).polled = (processWeather rd s).r := by
  constructor
  · cases rd with
    | none => rfl
    | some p => cases p with
      | mk t h => rfl
  · rw [cycle_normal b rd s hb hr]
    exact (processWeather_battery_irrel rd s 0).1

/-- Witness for claim C10 at the boot state with readings (20, 55). -/
theorem c10_witness :
    (processWeather (some (20, 55)) bootState).r =
      ((processWeather (some (20, 55)) bootState).sentTemp ||
        (processWeather (some (20, 55)) bootState).sentHum) ∧
    (cycle 50 (some (20, 55)) [] bootState).polled =
      (processWeather (some (20, 55)) bootState).r :=
  c10 bootState 50 (some (20, 55)) (by decide) (by decide)

end WeatherSensor
